import Mathlib

/-!
Verification of the SerialMonitor session engine (src/app.py).

This file gives a shallow embedding of the core of the program: the
command-history store (load/append/rename/trim), the per-tab session state
(`SerialTab`), the connect/disconnect/send operations, the background reader
loop, and the history-navigation cursor.  Python strings are Lean `String`s,
Python lists are Lean `List`s, raw serial bytes are `List Nat` (each entry a
byte value), and the thread-safe message queue is a `List` of tagged
messages in enqueue order.  The reader thread's racy reads of the
`is_connected` flag are modelled by an explicit schedule of observed flag
values, so the loop itself never owns the flag.

Helper functions mirror the Python builtins used by the source for the
inputs that occur here: `pyStrip` models `str.strip()` on ASCII whitespace,
`toUpperAscii` models `str.upper()` on ASCII text, `pyDecodeUtf8` models
strict `bytes.decode("utf-8")`, `utf8Encode` models `str.encode("utf-8")`,
and `bytesHex` models `bytes.hex()`.
-/

namespace SerialMonitor

/-- `MAX_HISTORY_PER_CONNECTION` from app.py line 19. -/
def MAX_HISTORY_PER_CONNECTION : Nat := 500

/-- Whitespace recognised by Python's `str.strip()` (ASCII subset; Python
additionally strips Unicode whitespace, which does not occur in this
development). -/
def isPySpace (c : Char) : Bool :=
  c = ' ' || c = '\t' || c = '\n' || c = '\x0d' || c = '\x0b' || c = '\x0c'

/-- Python `s.strip()`: remove leading and trailing whitespace. -/
def pyStrip (s : String) : String :=
  ⟨((s.data.dropWhile isPySpace).reverse.dropWhile isPySpace).reverse⟩

/-- Python `s.upper()` for ASCII text (`Char.toUpper` uppercases exactly the
ASCII letters). -/
def toUpperAscii (s : String) : String := ⟨s.data.map Char.toUpper⟩

/-- The four console tags used by app.py ("output", "input", "error",
"info"). -/
inductive Tag where
  | output
  | input
  | error
  | info
deriving DecidableEq

/-- One entry of a tab's `message_queue`: the tag and the message text. -/
abbrev Msg := Tag × String

/-- `SerialTab.log_message` (app.py lines 401-403): enqueue the message,
appending a newline unless the message already ends with one. -/
def log_message (q : List Msg) (tag : Tag) (message : String) : List Msg :=
  q ++ [(tag, if message.data.getLast? = some '\n' then message else message ++ "\n")]

/-! ## History store operations -/

/-- The consecutive-duplicate check of `save_command_to_history`
(app.py lines 236-238): append unless the command equals the last stored
entry. -/
def dedupAppend (hist : List String) (command : String) : List String :=
  if hist.getLast? = some command then hist else hist ++ [command]

/-- The trim step of `save_command_to_history` (app.py lines 239-241) and of
the rename merge (lines 211-212): keep the most recent
`MAX_HISTORY_PER_CONNECTION` entries by dropping from the front. -/
def trimHistory (l : List String) : List String :=
  if l.length > MAX_HISTORY_PER_CONNECTION then
    l.drop (l.length - MAX_HISTORY_PER_CONNECTION)
  else l

/-- The History Store `append` operation: the effect of
`SerialTab.save_command_to_history` (app.py lines 232-245) on the sequence
stored for `name`.  A no-op when the name is empty or the command is blank;
otherwise dedup-append then trim. -/
def append_history (name : String) (hist : List String) (command : String) : List String :=
  if name = "" ∨ pyStrip command = "" then hist
  else trimHistory (dedupAppend hist command)

/-- Boolean form of the "no two equal consecutive entries" invariant. -/
def noConsecutiveDup : List String → Bool
  | [] => true
  | [_] => true
  | a :: b :: rest => a ≠ b && noConsecutiveDup (b :: rest)

/-! ## Session (tab) state -/

/-- The serial connection handle: its open flag and the raw bytes written to
it. -/
structure PortHandle where
  is_open : Bool := true
  written : List Nat := []
deriving DecidableEq

/-- The state of one `SerialTab` (app.py lines 45-58), restricted to the
session engine: widgets are dropped; the Gtk input entry's current text is
kept as `input_text` because `send_data` and the history navigation read and
write it.  `store` is the persisted history mapping (the JSON file), with
absent names reading as `[]` exactly as `load_all_history` callers use it.
The field defaults are the `__init__` values of a fresh tab with an empty
history file. -/
structure TabState where
  is_connected : Bool := false
  serial_port : Option PortHandle := none
  read_thread : Bool := false
  connection_name : String := ""
  command_history : List String := []
  history_index : Int := -1
  current_input : String := ""
  input_text : String := ""
  message_queue : List Msg := []
  store : String → List String := fun _ => []

/-- `SerialTab.save_command_to_history` (app.py lines 232-245) as a state
transformer: guard, dedup-append, trim, then persist the sequence under the
current connection name. -/
def save_command_to_history (s : TabState) (command : String) : TabState :=
  if s.connection_name = "" ∨ pyStrip command = "" then s
  else
    { s with
      command_history := trimHistory (dedupAppend s.command_history command),
      store := fun n =>
        if n = s.connection_name then trimHistory (dedupAppend s.command_history command)
        else s.store n }

/-- `SerialTab.on_connection_name_applied` (app.py lines 195-230), dropping
the widget updates.  The typed text is stripped; an unchanged name returns
early; a rename (both names non-empty) pops the old sequence, merges it
after the sequence already stored under the new name, trims, persists, and
adopts the merged sequence; otherwise the live history is reloaded or
cleared.  In every non-early-return branch the connection name is updated
and `history_index` is reset to `-1`. -/
def on_connection_name_applied (typed : String) (s : TabState) : TabState :=
  if pyStrip typed = s.connection_name then s
  else if s.connection_name ≠ "" ∧ pyStrip typed ≠ "" ∧ s.connection_name ≠ pyStrip typed then
    { s with
      store := fun n =>
        if n = pyStrip typed then
          trimHistory
            ((if pyStrip typed = s.connection_name then [] else s.store (pyStrip typed))
              ++ s.store s.connection_name)
        else if n = s.connection_name then [] else s.store n,
      command_history :=
        trimHistory
          ((if pyStrip typed = s.connection_name then [] else s.store (pyStrip typed))
            ++ s.store s.connection_name),
      connection_name := pyStrip typed,
      history_index := -1 }
  else if pyStrip typed ≠ "" then
    { s with
      command_history := s.store (pyStrip typed),
      connection_name := pyStrip typed,
      history_index := -1 }
  else
    { s with
      command_history := [],
      connection_name := pyStrip typed,
      history_index := -1 }

/-! ## Helper lemmas about the history store -/

lemma dedupAppend_length (hist : List String) (command : String) :
    (dedupAppend hist command).length ≤ hist.length + 1 := by
  unfold dedupAppend
  split
  · omega
  · simp

lemma trimHistory_length_le (l : List String) (h : l.length ≤ 501) :
    (trimHistory l).length ≤ 500 := by
  unfold trimHistory MAX_HISTORY_PER_CONNECTION
  split
  · simp only [List.length_drop]
    omega
  · omega

lemma append_history_length_le (name : String) (hist : List String) (command : String)
    (h : hist.length ≤ 500) : (append_history name hist command).length ≤ 500 := by
  unfold append_history
  split
  · exact h
  · exact trimHistory_length_le _ (by have := dedupAppend_length hist command; omega)

lemma foldl_append_history_length_le (name : String) (cmds : List String) :
    ∀ hist : List String, hist.length ≤ 500 →
      (cmds.foldl (append_history name) hist).length ≤ 500 := by
  induction cmds with
  | nil => intro hist h; simpa using h
  | cons c rest ih =>
    intro hist h
    simpa using ih (append_history name hist c) (append_history_length_le name hist c h)

lemma noConsecutiveDup_tail (a : String) (tail : List String)
    (h : noConsecutiveDup (a :: tail) = true) : noConsecutiveDup tail = true := by
  cases tail with
  | nil => rfl
  | cons b rest =>
    have h' := h
    unfold noConsecutiveDup at h'
    exact (Bool.and_eq_true _ _ |>.mp h').2

lemma noConsecutiveDup_drop (n : Nat) :
    ∀ l : List String, noConsecutiveDup l = true → noConsecutiveDup (l.drop n) = true := by
  induction n with
  | zero => intro l h; simpa using h
  | succ m ih =>
    intro l h
    cases l with
    | nil => rfl
    | cons a tail =>
      exact ih tail (noConsecutiveDup_tail a tail h)

lemma noConsecutiveDup_trim (l : List String) (h : noConsecutiveDup l = true) :
    noConsecutiveDup (trimHistory l) = true := by
  unfold trimHistory
  split
  · exact noConsecutiveDup_drop _ l h
  · exact h

lemma noConsecutiveDup_concat (hist : List String) (command : String)
    (h : noConsecutiveDup hist = true) (hne : hist.getLast? ≠ some command) :
    noConsecutiveDup (hist ++ [command]) = true := by
  induction hist with
  | nil => rfl
  | cons a tail ih =>
    cases tail with
    | nil =>
      have hac : a ≠ command := by
        intro e
        exact hne (by simp [e])
      simp [noConsecutiveDup, hac]
    | cons b rest =>
      have h' := h
      unfold noConsecutiveDup at h'
      have hparts := Bool.and_eq_true _ _ |>.mp h'
      have hrec : noConsecutiveDup ((b :: rest) ++ [command]) = true := by
        apply ih hparts.2
        simpa [List.getLast?_cons_cons] using hne
      show noConsecutiveDup (a :: b :: (rest ++ [command])) = true
      simp only [noConsecutiveDup, Bool.and_eq_true]
      exact ⟨hparts.1, hrec⟩

lemma noConsecutiveDup_dedupAppend (hist : List String) (command : String)
    (h : noConsecutiveDup hist = true) :
    noConsecutiveDup (dedupAppend hist command) = true := by
  unfold dedupAppend
  split
  · exact h
  · exact noConsecutiveDup_concat hist command h (by assumption)

/-! ## UTF-8 codec and hex rendering

These model the Python library calls `bytes.decode("utf-8")` (strict mode,
as used by `read_from_serial`), `str.encode("utf-8")` (as used by
`send_data`), and `bytes.hex()`. -/

/-- A UTF-8 continuation byte (`0x80..0xBF`). -/
def isContinuation (b : Nat) : Bool := 0x80 ≤ b && b ≤ 0xBF

/-- Strict UTF-8 decoding of a byte list to characters, rejecting overlong
forms, surrogates and out-of-range code points, exactly as Python's strict
`bytes.decode("utf-8")` does. -/
def utf8DecodeChars : List Nat → Option (List Char)
  | [] => some []
  | b :: rest =>
    if b < 0x80 then
      (utf8DecodeChars rest).map (fun cs => Char.ofNat b :: cs)
    else if 0xC2 ≤ b && b ≤ 0xDF then
      match rest with
      | c1 :: rest1 =>
        if isContinuation c1 then
          (utf8DecodeChars rest1).map (fun cs =>
            Char.ofNat ((b - 0xC0) * 64 + (c1 - 0x80)) :: cs)
        else none
      | [] => none
    else if 0xE0 ≤ b && b ≤ 0xEF then
      match rest with
      | c1 :: c2 :: rest2 =>
        if (if b = 0xE0 then 0xA0 ≤ c1 && c1 ≤ 0xBF
            else if b = 0xED then 0x80 ≤ c1 && c1 ≤ 0x9F
            else isContinuation c1) && isContinuation c2 then
          (utf8DecodeChars rest2).map (fun cs =>
            Char.ofNat ((b - 0xE0) * 4096 + (c1 - 0x80) * 64 + (c2 - 0x80)) :: cs)
        else none
      | _ => none
    else if 0xF0 ≤ b && b ≤ 0xF4 then
      match rest with
      | c1 :: c2 :: c3 :: rest3 =>
        if (if b = 0xF0 then 0x90 ≤ c1 && c1 ≤ 0xBF
            else if b = 0xF4 then 0x80 ≤ c1 && c1 ≤ 0x8F
            else isContinuation c1) && isContinuation c2 && isContinuation c3 then
          (utf8DecodeChars rest3).map (fun cs =>
            Char.ofNat ((b - 0xF0) * 262144 + (c1 - 0x80) * 4096
              + (c2 - 0x80) * 64 + (c3 - 0x80)) :: cs)
        else none
      | _ => none
    else none

/-- Python `data.decode("utf-8")`: `some` of the decoded string, or `none`
when a `UnicodeDecodeError` would be raised. -/
def pyDecodeUtf8 (data : List Nat) : Option String :=
  (utf8DecodeChars data).map (fun cs => ⟨cs⟩)

/-- UTF-8 encoding of one character. -/
def utf8EncodeChar (c : Char) : List Nat :=
  let n := c.toNat
  if n < 0x80 then [n]
  else if n < 0x800 then [0xC0 + n / 64, 0x80 + n % 64]
  else if n < 0x10000 then [0xE0 + n / 4096, 0x80 + (n / 64) % 64, 0x80 + n % 64]
  else [0xF0 + n / 262144, 0x80 + (n / 4096) % 64, 0x80 + (n / 64) % 64, 0x80 + n % 64]

/-- Python `text.encode("utf-8")`. -/
def utf8Encode (s : String) : List Nat :=
  (s.data.map utf8EncodeChar).flatten

/-- One lowercase hex digit. -/
def hexDigit (n : Nat) : Char :=
  if n < 10 then Char.ofNat (48 + n) else Char.ofNat (87 + n)

/-- Python `data.hex()`: two lowercase hex digits per byte. -/
def bytesHex (data : List Nat) : String :=
  ⟨(data.map (fun b => [hexDigit (b / 16), hexDigit (b % 16)])).flatten⟩

/-! ## Session operations -/

/-- `SerialTab.connect` (app.py lines 311-347).  `port` and `baud_text` are
the combo-box selections; `openResult` is the outcome of the
`serial.Serial(...)` constructor call (`Except.error` models a
`serial.SerialException` with its message).  With no port selected the
method logs an error and returns before touching anything else; an
unparsable baud rate or a failed open also only log an error; on success the
handle is stored, the state becomes connected, an `Info` event is logged and
the reader thread is spawned. -/
def connect (openResult : Except String Unit) (port : Option String) (baud_text : String)
    (s : TabState) : TabState :=
  match port with
  | none =>
    { s with message_queue := log_message s.message_queue Tag.error "Please select a port" }
  | some p =>
    if p = "" then
      { s with message_queue := log_message s.message_queue Tag.error "Please select a port" }
    else
      match baud_text.toInt? with
      | none =>
        { s with message_queue := log_message s.message_queue Tag.error "Invalid baudrate" }
      | some baudrate =>
        match openResult with
        | Except.error e =>
          { s with message_queue := log_message s.message_queue Tag.error ("Error: " ++ e) }
        | Except.ok _ =>
          { s with
            is_connected := true,
            serial_port := some { is_open := true, written := [] },
            read_thread := true,
            message_queue := log_message s.message_queue Tag.info
              ("Connected to " ++ p ++ " at " ++ toString baudrate ++ " baud") }

/-- `SerialTab.disconnect` (app.py lines 349-362): clear the connected flag,
close the handle if it is open, and log an `Info` event — unconditionally,
even when the tab was already disconnected. -/
def disconnect (s : TabState) : TabState :=
  { s with
    is_connected := false,
    serial_port :=
      match s.serial_port with
      | some p => if p.is_open then some { p with is_open := false } else some p
      | none => none,
    message_queue := log_message s.message_queue Tag.info "Disconnected" }

/-- `SerialTab.send_data` (app.py lines 381-399).  `writeOk` is the outcome
of `serial_port.write` (`false` models a raised exception whose message is
`errMsg`).  When not connected an error is logged; when the uppercased entry
text is empty nothing happens; otherwise the uppercased text plus a newline
is written to the handle as UTF-8, an `Input` event is logged, the command
is saved to the history, the navigation cursor is reset and the entry is
cleared. -/
def send_data (writeOk : Bool) (errMsg : String) (s : TabState) : TabState :=
  if s.is_connected = false ∨ s.serial_port = none then
    { s with message_queue := log_message s.message_queue Tag.error "Not connected" }
  else if toUpperAscii s.input_text = "" then s
  else
    match s.serial_port with
    | none => s
    | some p =>
      if writeOk then
        { save_command_to_history
            { s with
              serial_port := some
                { p with written := p.written ++ utf8Encode (toUpperAscii s.input_text ++ "\n") },
              message_queue := log_message s.message_queue Tag.input
                (">> " ++ toUpperAscii s.input_text ++ "\n") }
            (toUpperAscii s.input_text)
          with history_index := -1, current_input := "", input_text := "" }
      else
        { s with
          message_queue := log_message s.message_queue Tag.error ("Send error: " ++ errMsg) }

/-! ## Reader loop -/

/-- What one iteration of the reader loop observes after its `while` check:
no pending bytes (or no handle), one line of received bytes, or a raised
I/O exception together with the value the `is_connected` flag has by the
time the `except` handler re-reads it. -/
inductive ReadAction where
  | idle
  | recv (data : List Nat)
  | fail (flagAtExcept : Bool) (msg : String)

/-- One scheduled iteration of the reader loop: the value the `while
self.is_connected` check observes, and what the iteration body then does.
The flag is part of the schedule because it is written concurrently by
`disconnect` on the other thread. -/
structure ReaderIter where
  flagAtCheck : Bool
  action : ReadAction

/-- The body of `read_from_serial` for one received line (app.py lines
369-375): decode as UTF-8 and strip, or fall back to a hex dump; either way
enqueue exactly one `Output` event. -/
def processData (data : List Nat) : Msg :=
  match pyDecodeUtf8 data with
  | some text => (Tag.output, "<< " ++ pyStrip text ++ "\n")
  | none => (Tag.output, "<< " ++ ("[HEX] " ++ bytesHex data) ++ "\n")

/-- `SerialTab.read_from_serial` (app.py lines 364-379) run against a
schedule of observed flag values and iteration outcomes.  The loop stops
when the `while` check observes `false`; an exception enqueues an `Error`
event only if the re-read flag is still true, and terminates the loop
either way.  The loop only ever enqueues messages — it touches no other
tab state. -/
def read_from_serial : List ReaderIter → TabState → TabState
  | [], s => s
  | it :: rest, s =>
    if it.flagAtCheck then
      match it.action with
      | ReadAction.idle => read_from_serial rest s
      | ReadAction.recv data =>
        read_from_serial rest { s with message_queue := s.message_queue ++ [processData data] }
      | ReadAction.fail flagAtExcept msg =>
        if flagAtExcept then
          { s with message_queue := s.message_queue ++ [(Tag.error, "Read error: " ++ msg ++ "\n")] }
        else s
    else s

/-! ## History navigation -/

/-- The key pressed in the input entry. -/
inductive Key where
  | up
  | down
  | other

/-- Python list indexing `l[i]` for the in-range indices used by the
navigation code (a negative index counts from the end; out-of-range access,
which would raise in Python, is not reachable from the navigation states and
defaults to `""`). -/
def pyGet (l : List String) (i : Int) : String :=
  l.getD (if i < 0 then ((l.length : Int) + i).toNat else i.toNat) ""

/-- `SerialTab.on_input_key_press` (app.py lines 247-279): Up/Down command
history navigation over the entry text.  Returns the new state and whether
the key event was consumed. -/
def on_input_key_press (key : Key) (s : TabState) : TabState × Bool :=
  if s.command_history = [] then (s, false)
  else
    match key with
    | Key.up =>
      let s1 :=
        if s.history_index = -1 then
          { s with
            current_input := s.input_text,
            history_index := (s.command_history.length : Int) - 1 }
        else if s.history_index > 0 then
          { s with history_index := s.history_index - 1 }
        else s
      ({ s1 with input_text := pyGet s1.command_history s1.history_index }, true)
    | Key.down =>
      if s.history_index = -1 then (s, false)
      else if s.history_index < (s.command_history.length : Int) - 1 then
        ({ s with
            history_index := s.history_index + 1,
            input_text := pyGet s.command_history (s.history_index + 1) }, true)
      else ({ s with history_index := -1, input_text := s.current_input }, true)
    | Key.other => (s, false)

/-- The spec's description of the decode step, modelled from its words
"trim trailing whitespace": remove only trailing whitespace, preserving
leading whitespace.  Used to compare the spec's claim against the source's
`processData`, which strips both ends. -/
def specTrimTrailing (s : String) : String :=
  ⟨(s.data.reverse.dropWhile isPySpace).reverse⟩

/-- A disconnected tab's handle is absent or closed (the hypothesis under
which `disconnect` is re-entered in claim C4). -/
def portClosed : Option PortHandle → Bool
  | none => true
  | some p => !p.is_open

/-! ## Helper lemmas about logging and saving -/

lemma log_message_endsNl (q : List Msg) (t : Tag) (x : String) :
    log_message q t (x ++ "\n") = q ++ [(t, x ++ "\n")] := by
  obtain ⟨l⟩ := x
  unfold log_message
  rw [show (String.mk l ++ "\n").data = l ++ ['\n'] from rfl, List.getLast?_concat, if_pos rfl]

lemma log_message_noNl (q : List Msg) (t : Tag) (m : String)
    (h : m.data.getLast? ≠ some '\n') :
    log_message q t m = q ++ [(t, m ++ "\n")] := by
  unfold log_message
  rw [if_neg h]

lemma save_command_to_history_message_queue (s : TabState) (command : String) :
    (save_command_to_history s command).message_queue = s.message_queue := by
  unfold save_command_to_history
  split <;> rfl

lemma save_command_to_history_serial_port (s : TabState) (command : String) :
    (save_command_to_history s command).serial_port = s.serial_port := by
  unfold save_command_to_history
  split <;> rfl

lemma save_command_to_history_command_history (s : TabState) (command : String) :
    (save_command_to_history s command).command_history
      = append_history s.connection_name s.command_history command := by
  unfold save_command_to_history append_history
  split <;> rfl

/-! ## Claims -/

/-- A tab named `"B"` with history `["X"]`, while the store also holds
`["X"]` for `"A"` — each entry reachable by a single append on its tab. -/
def tabBothX : TabState :=
  { connection_name := "B", command_history := ["X"],
    store := fun n => if n = "A" then ["X"] else if n = "B" then ["X"] else [] }

/-- Claim C1, counterexample.  With histories `["X"]` stored for both `"A"`
and `"B"` (each reachable by a single append), renaming the connection from
`"B"` to `"A"` merges the two sequences without deduplicating at the
junction, so the sequence stored for `"A"` becomes `["X", "X"]` — two equal
consecutive entries.  This refutes the claim that the no-consecutive-equal
invariant is preserved by every store operation including the rename
merge. -/
theorem C1_rename_merge_counterexample :
    (on_connection_name_applied "A" tabBothX).store "A" = ["X", "X"] ∧
    noConsecutiveDup ((on_connection_name_applied "A" tabBothX).store "A") = false := by
  decide

/-- Claim C1, amended: the `append` operation of the History Store preserves
the no-two-equal-consecutive-entries invariant for every connection name
(it skips a command equal to the last stored entry, and trimming drops only
a prefix), but the rename merge does not preserve it: concatenating the
sequence stored for the new name with the migrated sequence can create one
equal adjacent pair at the junction (see the counterexample). -/
theorem C1_append_preserves_consecutive_dedup (name : String) (hist : List String)
    (command : String) (h : noConsecutiveDup hist = true) :
    noConsecutiveDup (append_history name hist command) = true := by
  unfold append_history
  split
  · exact h
  · exact noConsecutiveDup_trim _ (noConsecutiveDup_dedupAppend hist command h)

/-- Witness for C1: appending `"A"` to `["A"]` is skipped by the dedup check
and the invariant holds afterwards. -/
theorem C1_append_preserves_consecutive_dedup_witness :
    noConsecutiveDup ["A"] = true ∧
    noConsecutiveDup (append_history "DEV" ["A"] "A") = true :=
  ⟨by decide, C1_append_preserves_consecutive_dedup "DEV" ["A"] "A" (by decide)⟩

/-- Claim C2: for distinct non-empty names, applying the new name stores
under it exactly the sequence previously stored under the new name followed
by the sequence previously stored under the old name, trimmed to the most
recent 500 entries by dropping from the front; afterwards the old name's
sequence is empty (the key was popped), the live history adopts the merged
sequence, and the tab's connection name is the new name. -/
theorem C2_rename_merges_and_clears (s : TabState) (typed : String)
    (h1 : s.connection_name ≠ "") (h2 : pyStrip typed ≠ "")
    (h3 : pyStrip typed ≠ s.connection_name) :
    (on_connection_name_applied typed s).store (pyStrip typed)
        = trimHistory (s.store (pyStrip typed) ++ s.store s.connection_name) ∧
    (on_connection_name_applied typed s).store s.connection_name = [] ∧
    (on_connection_name_applied typed s).command_history
        = trimHistory (s.store (pyStrip typed) ++ s.store s.connection_name) ∧
    (on_connection_name_applied typed s).connection_name = pyStrip typed := by
  unfold on_connection_name_applied
  rw [if_neg h3, if_pos ⟨h1, h2, fun e => h3 e.symm⟩]
  refine ⟨?_, ?_, ?_, rfl⟩
  · show (if pyStrip typed = pyStrip typed then
        trimHistory ((if pyStrip typed = s.connection_name then []
          else s.store (pyStrip typed)) ++ s.store s.connection_name)
      else if pyStrip typed = s.connection_name then [] else s.store (pyStrip typed)) = _
    rw [if_pos rfl, if_neg h3]
  · show (if s.connection_name = pyStrip typed then
        trimHistory ((if pyStrip typed = s.connection_name then []
          else s.store (pyStrip typed)) ++ s.store s.connection_name)
      else if s.connection_name = s.connection_name then []
      else s.store s.connection_name) = _
    rw [if_neg (fun e => h3 e.symm), if_pos rfl]
  · show trimHistory ((if pyStrip typed = s.connection_name then []
        else s.store (pyStrip typed)) ++ s.store s.connection_name) = _
    rw [if_neg h3]

/-- A tab named `"A"` with `["X"]` stored for `"A"` and `["Y"]` stored for
`"B"`, about to be renamed to `"B"`. -/
def tabRenameAB : TabState :=
  { connection_name := "A",
    store := fun n => if n = "A" then ["X"] else if n = "B" then ["Y"] else [] }

/-- Witness for C2: renaming `"A"` (history `["X"]`) to `"B"` (history
`["Y"]`) stores `["Y", "X"]` under `"B"` and empties `"A"`. -/
theorem C2_rename_merges_and_clears_witness :
    tabRenameAB.connection_name ≠ "" ∧
    pyStrip "B" ≠ "" ∧
    pyStrip "B" ≠ tabRenameAB.connection_name ∧
    ((on_connection_name_applied "B" tabRenameAB).store (pyStrip "B")
        = trimHistory
            (tabRenameAB.store (pyStrip "B") ++ tabRenameAB.store tabRenameAB.connection_name) ∧
      (on_connection_name_applied "B" tabRenameAB).store tabRenameAB.connection_name = [] ∧
      (on_connection_name_applied "B" tabRenameAB).command_history
        = trimHistory
            (tabRenameAB.store (pyStrip "B") ++ tabRenameAB.store tabRenameAB.connection_name) ∧
      (on_connection_name_applied "B" tabRenameAB).connection_name = pyStrip "B") :=
  ⟨by decide, by decide, by decide,
    C2_rename_merges_and_clears tabRenameAB "B" (by decide) (by decide) (by decide)⟩

/-- Claim C3: starting from a stored sequence of length at most 500 (in
particular from the empty one), every single `append` and every sequence of
`append` calls keeps the length at most 500; and whenever trimming occurs
(length above 500), the retained entries are exactly the most recent ones in
their original relative order — the trimmed sequence is the suffix obtained
by dropping the oldest entries from the front. -/
theorem C3_append_caps_history_at_500 :
    (∀ (name : String) (hist : List String) (command : String),
      hist.length ≤ 500 → (append_history name hist command).length ≤ 500) ∧
    (∀ (name : String) (cmds : List String),
      (cmds.foldl (append_history name) []).length ≤ 500) ∧
    (∀ l : List String, 500 < l.length →
      trimHistory l = l.drop (l.length - 500) ∧
      l = l.take (l.length - 500) ++ trimHistory l ∧
      (trimHistory l).length = 500) := by
  refine ⟨append_history_length_le, ?_, ?_⟩
  · intro name cmds
    exact foldl_append_history_length_le name cmds [] (by simp)
  · intro l h
    have htrim : trimHistory l = l.drop (l.length - 500) := by
      unfold trimHistory MAX_HISTORY_PER_CONNECTION
      rw [if_pos h]
    refine ⟨htrim, ?_, ?_⟩
    · rw [htrim, List.take_append_drop]
    · rw [htrim, List.length_drop]
      omega

/-- Witness for C3: a single append to `["A"]` stays within the cap, and a
501-element sequence is trimmed to its 500-element suffix. -/
theorem C3_append_caps_history_at_500_witness :
    ((["A"] : List String).length ≤ 500 ∧
      (append_history "DEV" ["A"] "B").length ≤ 500) ∧
    (500 < (List.replicate 501 "x" : List String).length ∧
      trimHistory (List.replicate 501 "x")
          = (List.replicate 501 "x" : List String).drop ((List.replicate 501 "x" : List String).length - 500) ∧
      (List.replicate 501 "x" : List String)
          = (List.replicate 501 "x" : List String).take ((List.replicate 501 "x" : List String).length - 500)
            ++ trimHistory (List.replicate 501 "x") ∧
      (trimHistory (List.replicate 501 "x" : List String)).length = 500) :=
  ⟨⟨by norm_num, C3_append_caps_history_at_500.1 "DEV" ["A"] "B" (by norm_num)⟩,
    ⟨by norm_num, C3_append_caps_history_at_500.2.2 (List.replicate 501 "x") (by norm_num)⟩⟩

/-- Claim C4, counterexample.  Calling `disconnect` on a freshly created
(already disconnected) tab is not a no-op on the event channel: it enqueues
an `Info "Disconnected"` event. -/
theorem C4_disconnect_enqueues_counterexample :
    (({} : TabState).is_connected = false) ∧
    (disconnect ({} : TabState)).message_queue = [(Tag.info, "Disconnected\n")] ∧
    (disconnect ({} : TabState)).message_queue ≠ ({} : TabState).message_queue := by
  decide

/-- Claim C4, amended: calling `disconnect()` on a Session that is already
Disconnected (flag false, handle absent or closed) leaves the state flag and
the connection handle unchanged, but it is not a complete no-op — exactly
one `Info "Disconnected"` event is enqueued on the event channel. -/
theorem C4_disconnect_when_disconnected (s : TabState)
    (h1 : s.is_connected = false) (h2 : portClosed s.serial_port = true) :
    disconnect s = { s with message_queue := s.message_queue ++ [(Tag.info, "Disconnected\n")] } := by
  obtain ⟨ic, sp, rt, cn, ch, hi, ci, it, mq, st⟩ := s
  simp only at h1 h2
  subst h1
  unfold disconnect
  rw [log_message_noNl _ _ _ (by decide)]
  cases sp with
  | none => rfl
  | some p =>
    obtain ⟨io, w⟩ := p
    have hio : io = false := by simpa [portClosed] using h2
    subst hio
    rfl

/-- Witness for C4: re-entering `disconnect` on a fresh tab. -/
theorem C4_disconnect_when_disconnected_witness :
    (({} : TabState).is_connected = false) ∧
    portClosed ({} : TabState).serial_port = true ∧
    disconnect ({} : TabState)
      = { ({} : TabState) with
          message_queue := ({} : TabState).message_queue ++ [(Tag.info, "Disconnected\n")] } :=
  ⟨by decide, by decide, C4_disconnect_when_disconnected {} (by decide) (by decide)⟩

/-- Claim C5: from a Connected session with a handle and non-empty
(uppercased) entry text, a successful send writes the UTF-8 encoding of the
uppercased text plus a newline to the handle, enqueues exactly one `Input`
event reading `">> "` plus the uppercased text (plus the channel's
terminating newline), runs the History Store append with the uppercased
text for the current connection name, and resets the history cursor to
index `-1` with an empty draft (also clearing the entry). -/
theorem C5_send_success (s : TabState) (p : PortHandle) (err : String)
    (h1 : s.is_connected = true) (h2 : s.serial_port = some p)
    (h3 : toUpperAscii s.input_text ≠ "") :
    (send_data true err s).serial_port
        = some { p with written := p.written ++ utf8Encode (toUpperAscii s.input_text ++ "\n") } ∧
    (send_data true err s).message_queue
        = s.message_queue ++ [(Tag.input, ">> " ++ toUpperAscii s.input_text ++ "\n")] ∧
    (send_data true err s).command_history
        = append_history s.connection_name s.command_history (toUpperAscii s.input_text) ∧
    (send_data true err s).history_index = -1 ∧
    (send_data true err s).current_input = "" ∧
    (send_data true err s).input_text = "" := by
  have e : send_data true err s
      = { save_command_to_history
            { s with
              serial_port := some
                { p with written := p.written ++ utf8Encode (toUpperAscii s.input_text ++ "\n") },
              message_queue := log_message s.message_queue Tag.input
                (">> " ++ toUpperAscii s.input_text ++ "\n") }
            (toUpperAscii s.input_text)
          with history_index := -1, current_input := "", input_text := "" } := by
    unfold send_data
    rw [if_neg (by simp [h1, h2]), if_neg h3, h2]
    rfl
  rw [e]
  refine ⟨?_, ?_, ?_, rfl, rfl, rfl⟩
  · simp only [save_command_to_history_serial_port]
  · simp only [save_command_to_history_message_queue]
    exact log_message_endsNl s.message_queue Tag.input (">> " ++ toUpperAscii s.input_text)
  · simp only [save_command_to_history_command_history]

/-- A connected tab named `"DEV"` with `"led on"` typed in the entry. -/
def tabConnectedLedOn : TabState :=
  { is_connected := true, serial_port := some { is_open := true, written := [] },
    connection_name := "DEV", input_text := "led on" }

/-- Witness for C5: sending `"led on"` on a connected tab. -/
theorem C5_send_success_witness :
    tabConnectedLedOn.is_connected = true ∧
    tabConnectedLedOn.serial_port = some { is_open := true, written := [] } ∧
    toUpperAscii tabConnectedLedOn.input_text ≠ "" ∧
    ((send_data true "" tabConnectedLedOn).serial_port
        = some { is_open := true,
                 written := [] ++ utf8Encode (toUpperAscii tabConnectedLedOn.input_text ++ "\n") } ∧
      (send_data true "" tabConnectedLedOn).message_queue
        = tabConnectedLedOn.message_queue
            ++ [(Tag.input, ">> " ++ toUpperAscii tabConnectedLedOn.input_text ++ "\n")] ∧
      (send_data true "" tabConnectedLedOn).command_history
        = append_history tabConnectedLedOn.connection_name tabConnectedLedOn.command_history
            (toUpperAscii tabConnectedLedOn.input_text) ∧
      (send_data true "" tabConnectedLedOn).history_index = -1 ∧
      (send_data true "" tabConnectedLedOn).current_input = "" ∧
      (send_data true "" tabConnectedLedOn).input_text = "") :=
  ⟨by decide, by decide, by decide,
    C5_send_success tabConnectedLedOn { is_open := true, written := [] } ""
      (by decide) (by decide) (by decide)⟩

/-- Claim C6, counterexample.  The bytes `[0x20, 0x20, 0x68, 0x69]` decode
as `"  hi"`; the reader enqueues `"<< hi"` — Python's `strip()` removes the
leading whitespace too — whereas the claim (trailing whitespace trimmed,
leading preserved) predicts `"<<   hi"`. -/
theorem C6_strip_counterexample :
    pyDecodeUtf8 [32, 32, 104, 105] = some "  hi" ∧
    processData [32, 32, 104, 105] = (Tag.output, "<< hi\n") ∧
    specTrimTrailing "  hi" = "  hi" ∧
    processData [32, 32, 104, 105]
      ≠ (Tag.output, "<< " ++ specTrimTrailing "  hi" ++ "\n") := by
  decide

/-- Claim C6, amended: for every received line of bytes the reader enqueues
exactly one `Output` event; when the bytes decode as UTF-8 its text is
`"<< "` followed by the decoded text with whitespace stripped from *both*
ends (not only trailing); when decoding fails its text is `"<< "` followed
by `"[HEX] "` and the lowercase hex encoding of exactly those bytes — the
bytes are never dropped. -/
theorem C6_reader_line_events :
    (∀ (data : List Nat) (rest : List ReaderIter) (s : TabState),
      read_from_serial ({ flagAtCheck := true, action := ReadAction.recv data } :: rest) s
        = read_from_serial rest
            { s with message_queue := s.message_queue ++ [processData data] }) ∧
    (∀ (data : List Nat) (text : String), pyDecodeUtf8 data = some text →
      processData data = (Tag.output, "<< " ++ pyStrip text ++ "\n")) ∧
    (∀ data : List Nat, pyDecodeUtf8 data = none →
      processData data = (Tag.output, "<< " ++ ("[HEX] " ++ bytesHex data) ++ "\n")) := by
  refine ⟨fun data rest s => rfl, ?_, ?_⟩
  · intro data text h
    unfold processData
    rw [h]
  · intro data h
    unfold processData
    rw [h]

/-- Witness for C6: a decodable line and an undecodable one. -/
theorem C6_reader_line_events_witness :
    pyDecodeUtf8 [104, 105] = some "hi" ∧
    processData [104, 105] = (Tag.output, "<< " ++ pyStrip "hi" ++ "\n") ∧
    pyDecodeUtf8 [255] = none ∧
    processData [255] = (Tag.output, "<< " ++ ("[HEX] " ++ bytesHex [255]) ++ "\n") :=
  ⟨by decide, C6_reader_line_events.2.1 [104, 105] "hi" (by decide),
    by decide, C6_reader_line_events.2.2 [255] (by decide)⟩

/-- Claim C7: the reader loop never changes the session's connected flag
(for any schedule of iterations, `is_connected` is exactly what it was — the
loop's exit never transitions the state machine to Disconnected; only an
explicit `disconnect()` does), and an iteration that hits an I/O failure
enqueues an `Error` event if and only if the re-read connected flag is still
true at the failure, then terminates the loop in either case (the remainder
of the schedule is ignored). -/
theorem C7_reader_failure_and_flag :
    (∀ (iters : List ReaderIter) (s : TabState),
      (read_from_serial iters s).is_connected = s.is_connected) ∧
    (∀ (b : Bool) (msg : String) (rest : List ReaderIter) (s : TabState),
      read_from_serial ({ flagAtCheck := true, action := ReadAction.fail b msg } :: rest) s
        = { s with
            message_queue := s.message_queue
              ++ (if b then [(Tag.error, "Read error: " ++ msg ++ "\n")] else []) }) := by
  constructor
  · intro iters
    induction iters with
    | nil => intro s; rfl
    | cons it rest ih =>
      intro s
      obtain ⟨flag, act⟩ := it
      cases flag
      · rfl
      · cases act with
        | idle => exact ih s
        | recv data => exact ih _
        | fail b msg => cases b <;> rfl
  · intro b msg rest s
    cases b
    · simp [read_from_serial]
    · rfl

/-- A tab with history `["A", "B", "C"]` and the draft `"D"` typed in the
entry, not currently browsing. -/
def tabNavABC : TabState :=
  { command_history := ["A", "B", "C"], input_text := "D" }

/-- Claim C8: with history `["A","B","C"]` and typed draft `"D"` while not
browsing, three Up presses display `"C"`, `"B"`, `"A"`; a fourth Up stays at
`"A"`; three Down presses then display `"B"`, `"C"`, and finally exit
browsing (index back to `-1`) restoring the draft `"D"`. -/
theorem C8_navigation_scenario :
    (on_input_key_press Key.up tabNavABC).1.input_text = "C" ∧
    (on_input_key_press Key.up (on_input_key_press Key.up tabNavABC).1).1.input_text = "B" ∧
    (on_input_key_press Key.up
      (on_input_key_press Key.up (on_input_key_press Key.up tabNavABC).1).1).1.input_text
      = "A" ∧
    (on_input_key_press Key.up (on_input_key_press Key.up
      (on_input_key_press Key.up (on_input_key_press Key.up tabNavABC).1).1).1).1.input_text
      = "A" ∧
    (on_input_key_press Key.down (on_input_key_press Key.up (on_input_key_press Key.up
      (on_input_key_press Key.up
        (on_input_key_press Key.up tabNavABC).1).1).1).1).1.input_text
      = "B" ∧
    (on_input_key_press Key.down (on_input_key_press Key.down (on_input_key_press Key.up
      (on_input_key_press Key.up (on_input_key_press Key.up
        (on_input_key_press Key.up tabNavABC).1).1).1).1).1).1.input_text
      = "C" ∧
    (on_input_key_press Key.down (on_input_key_press Key.down (on_input_key_press Key.down
      (on_input_key_press Key.up (on_input_key_press Key.up (on_input_key_press Key.up
        (on_input_key_press Key.up tabNavABC).1).1).1).1).1).1).1.input_text
      = "D" ∧
    (on_input_key_press Key.down (on_input_key_press Key.down (on_input_key_press Key.down
      (on_input_key_press Key.up (on_input_key_press Key.up (on_input_key_press Key.up
        (on_input_key_press Key.up tabNavABC).1).1).1).1).1).1).1.history_index
      = -1 := by
  decide

/-- Claim C9, counterexample.  Applying a changed connection name resets the
browsing index to `-1` but does *not* clear the captured draft: with draft
`"D"` stored in the cursor, the draft is still `"D"` afterwards, so the
cursor is not reset to `(-1, "")` as claimed. -/
theorem C9_draft_not_cleared_counterexample :
    (on_connection_name_applied "NEW"
        ({ connection_name := "OLD", current_input := "D" } : TabState)).history_index = -1 ∧
    (on_connection_name_applied "NEW"
        ({ connection_name := "OLD", current_input := "D" } : TabState)).current_input = "D" ∧
    ¬ ((on_connection_name_applied "NEW"
          ({ connection_name := "OLD", current_input := "D" } : TabState)).history_index = -1 ∧
        (on_connection_name_applied "NEW"
          ({ connection_name := "OLD", current_input := "D" } : TabState)).current_input = "") := by
  decide

/-- Claim C9, amended: whenever the connection name is changed (applied name
differs from the current one), the browsing index is reset to `-1`, but the
captured draft string is left unchanged — only sending a command clears
it. -/
theorem C9_name_change_resets_index_only (s : TabState) (typed : String)
    (h : pyStrip typed ≠ s.connection_name) :
    (on_connection_name_applied typed s).history_index = -1 ∧
    (on_connection_name_applied typed s).current_input = s.current_input := by
  unfold on_connection_name_applied
  rw [if_neg h]
  split_ifs <;> exact ⟨rfl, rfl⟩

/-- Witness for C9: applying `"B"` to a tab named `"A"` holding draft
`"D"`. -/
theorem C9_name_change_resets_index_only_witness :
    pyStrip "B" ≠ ({ connection_name := "A", current_input := "D" } : TabState).connection_name ∧
    ((on_connection_name_applied "B"
        ({ connection_name := "A", current_input := "D" } : TabState)).history_index = -1 ∧
      (on_connection_name_applied "B"
        ({ connection_name := "A", current_input := "D" } : TabState)).current_input
        = ({ connection_name := "A", current_input := "D" } : TabState).current_input) :=
  ⟨by decide, C9_name_change_resets_index_only _ "B" (by decide)⟩

/-- Claim C10: calling `connect` with no port selected enqueues exactly one
`Error "Please select a port"` event and changes nothing else: the result
holds for every possible outcome of the (never attempted) device open, the
connected flag and reader-thread field are untouched (so a Disconnected
session stays Disconnected and no reader is spawned), and the handle is
unchanged. -/
theorem C10_connect_without_port :
    ∀ (r : Except String Unit) (baud : String) (s : TabState),
      connect r none baud s
        = { s with message_queue := s.message_queue ++ [(Tag.error, "Please select a port\n")] } ∧
      (connect r none baud s).is_connected = s.is_connected ∧
      (connect r none baud s).read_thread = s.read_thread ∧
      (connect r none baud s).serial_port = s.serial_port := by
  intro r baud s
  have e : connect r none baud s
      = { s with message_queue := s.message_queue ++ [(Tag.error, "Please select a port\n")] } := by
    show { s with message_queue := log_message s.message_queue Tag.error "Please select a port" }
        = _
    rw [log_message_noNl _ _ _ (by decide)]
    rfl
  exact ⟨e, by rw [e], by rw [e], by rw [e]⟩

end SerialMonitor
